import Mathlib

/-!
Verification development for the proxy-monitor program (src/main.py).

Strings are embedded as `List Char`.  Python's `str.replace` (replace every
non-overlapping occurrence, scanning left to right) is embedded as
`replaceAll`; the fuel argument of `replaceAllFuel` only makes the
recursion structural, with fuel `s.length` it never runs out before the
input is exhausted.
-/

set_option autoImplicit false

/-- Boolean test that `pat` is a prefix of `s` (used to detect a match of
`str.replace` at the current scan position). -/
def startsWith : List Char → List Char → Bool
  | [], _ => true
  | _ :: _, [] => false
  | p :: ps, c :: cs => p == c && startsWith ps cs

/-- Fuel-indexed worker for `replaceAll`.  At each position, if the (nonempty)
pattern matches, emit the replacement and skip the pattern; otherwise keep the
character and advance by one — exactly Python's `str.replace` scan. -/
def replaceAllFuel (pat rep : List Char) : Nat → List Char → List Char
  | _, [] => []
  | 0, s => s
  | fuel + 1, c :: rest =>
    if startsWith pat (c :: rest) && !pat.isEmpty then
      rep ++ replaceAllFuel pat rep fuel ((c :: rest).drop pat.length)
    else
      c :: replaceAllFuel pat rep fuel rest

/-- Embedding of Python's `s.replace(pat, rep)` for a nonempty pattern
(the program only ever calls it with nonempty patterns). -/
def replaceAll (pat rep s : List Char) : List Char :=
  replaceAllFuel pat rep s.length s

/-- The characters `invalid_chars = r'[]/\?*:'` of `sanitize_sheet_name`
(src/main.py line 36), in source order. -/
def invalid_chars : List Char := ['[', ']', '/', '\\', '?', '*', ':']

/-- Embedding of `sanitize_sheet_name` (src/main.py lines 33-39):
`url.replace("https://", "").replace("http://", "").replace("www.", "")`,
then each invalid character replaced by an underscore, then `name[:31]`. -/
def sanitize_sheet_name (url : List Char) : List Char :=
  let name := replaceAll ("https://".toList) [] url
  let name := replaceAll ("http://".toList) [] name
  let name := replaceAll ("www.".toList) [] name
  let name := invalid_chars.foldl (fun n c => replaceAll [c] ['_'] n) name
  name.take 31

/-- Drop `pat` from the front of `s` when it stands there, else leave `s`
unchanged (the "strip the LEADING occurrence" operation named by the spec). -/
def stripLeading (pat s : List Char) : List Char :=
  if startsWith pat s then s.drop pat.length else s

/-- Reference definition following the claim wording for C1: strip the
leading occurrences of the three markers, replace every occurrence of each
invalid character with an underscore, truncate to 31 characters. -/
def sanitize_claim (url : List Char) : List Char :=
  let name := stripLeading ("www.".toList)
    (stripLeading ("http://".toList) (stripLeading ("https://".toList) url))
  (name.map (fun c => if invalid_chars.contains c then '_' else c)).take 31

/-- The claim amended to what the code does: the three markers are removed at
EVERY occurrence (Python `str.replace` is global), in source order
`https://`, `http://`, `www.`; character replacement and truncation are as
the claim states them. -/
def sanitize_amended (url : List Char) : List Char :=
  ((replaceAll ("www.".toList) []
      (replaceAll ("http://".toList) []
        (replaceAll ("https://".toList) [] url))).map
    (fun c => if invalid_chars.contains c then '_' else c)).take 31

/-- One logged row, the columns of the `pd.DataFrame` built at src/main.py
lines 52-53: `['Timestamp', 'URL', 'Download Time (s)', 'Status']`. -/
structure Row where
  timestamp : List Char
  url : List Char
  downloadTime : List Char
  status : List Char

/-- The workbook: named sheets in file order, one list of rows per sheet
(the `sheets` dict of `log_to_excel`; Python dicts keep insertion order). -/
abbrev Sheets := List (List Char × List Row)

/-- Membership/lookup in the sheets dict (`sheet_name in sheets`,
`sheets[sheet_name]`). -/
def lookupSheet : Sheets → List Char → Option (List Row)
  | [], _ => none
  | (k, rs) :: rest, key => if k = key then some rs else lookupSheet rest key

/-- Dict assignment `sheets[sheet_name] = df`: overwrite in place when the key
exists, append a new entry at the end otherwise. -/
def setSheet : Sheets → List Char → List Row → Sheets
  | [], key, rs => [(key, rs)]
  | (k, rs0) :: rest, key, rs =>
    if k = key then (key, rs) :: rest else (k, rs0) :: setSheet rest key rs

/-- The merge step of `log_to_excel` (src/main.py lines 62-65): concat the new
row onto the existing sheet, or create the sheet with just that row. -/
def logSheets (sheets : Sheets) (key : List Char) (row : Row) : Sheets :=
  match lookupSheet sheets key with
  | some rs => setSheet sheets key (rs ++ [row])
  | none => sheets ++ [(key, [row])]

/-- Round the fraction `num / den` (`den` positive) to the nearest integer,
ties to even — the rounding of Python's fixed-point string formatting.  The
floor is `Int.fdiv`; the remainder `num - f * den` over `den` is compared to
one half by cross-multiplication. -/
def roundHalfEven (num den : ℤ) : ℤ :=
  let f := Int.fdiv num den
  let r2 := 2 * (num - f * den)
  if r2 < den then f
  else if den < r2 then f + 1
  else if f % 2 = 0 then f else f + 1

/-- Left-pad a digit string with zeros to width `n`. -/
def padZeros (n : Nat) (ds : List Char) : List Char :=
  List.replicate (n - ds.length) '0' ++ ds

/-- Embedding of the format `f"\x7bdownload_time:.4f\x7d"` (src/main.py
line 52) for nonnegative values: the rational `q * 10000` (written as the
fraction `q.num * 10000 / q.den`) rounded to an integer with ties to even,
printed with four digits after the decimal point.  The program formats exact
values at the inputs the claims exercise (the integer 0 for DOWN rows), where
binary floating point and exact rational formatting agree. -/
def formatFixed4 (q : ℚ) : List Char :=
  let n : Nat := (roundHalfEven (q.num * 10000) (q.den : ℤ)).toNat
  Nat.toDigits 10 (n / 10000) ++ '.' :: padZeros 4 (Nat.toDigits 10 (n % 10000))

/-- The new row `df_new_row` of `log_to_excel` for one outcome. -/
def mkRow (url : List Char) (download_time : ℚ) (status ts : List Char) : Row :=
  { timestamp := ts, url := url, downloadTime := formatFixed4 download_time,
    status := status }

/-- Contents read from the log file: a missing file (`none`) is read as the
empty dict of sheets (src/main.py lines 56-60). -/
def sheetsOf : Option Sheets → Sheets
  | none => []
  | some s => s

/-- Embedding of the success path of `log_to_excel` (src/main.py lines 41-69):
read all sheets (missing file = no sheets), merge the new row into the sheet
named by the sanitized URL, write everything back.  `ts` stands for the
`datetime.now().isoformat()` capture. -/
def log_to_excel (file : Option Sheets) (url : List Char) (download_time : ℚ)
    (status ts : List Char) : Sheets :=
  logSheets (sheetsOf file) (sanitize_sheet_name url) (mkRow url download_time status ts)

/-- The whole body of `log_to_excel` runs inside `try/except` (src/main.py
lines 55-72): when the read/parse/write raises (`err = true`) the error is
printed and the function returns with the file unchanged. -/
def log_to_excel_caught (err : Bool) (file : Option Sheets) (url : List Char)
    (download_time : ℚ) (status ts : List Char) : Option Sheets :=
  if err then file else some (log_to_excel file url download_time status ts)

/-- One probe outcome to be logged: the latency value passed to
`log_to_excel`, the status string, and the timestamp taken inside the call. -/
structure Outcome where
  time : ℚ
  status : List Char
  ts : List Char

/-- The row that one outcome contributes for a given URL. -/
def rowOf (url : List Char) (o : Outcome) : Row :=
  mkRow url o.time o.status o.ts

/-- N successive successful `log_to_excel` calls for the same URL. -/
def log_many (file : Option Sheets) (url : List Char) (outs : List Outcome) :
    Option Sheets :=
  outs.foldl (fun f o => some (log_to_excel f url o.time o.status o.ts)) file

/-- The email-related fields of the resolved argparse namespace.  `none` is an
unset argparse field (Python `None`); a set string field may still be the
empty string and a set port may be 0, which Python truthiness treats like
`None`. -/
structure MailArgs where
  recipient_email : Option (List Char)
  use_local_mta : Bool
  smtp_server : Option (List Char)
  smtp_port : Option Int
  smtp_user : Option (List Char)
  smtp_password : Option (List Char)

/-- Python truthiness of an optional string: `None` and `""` are falsy. -/
def truthyStr : Option (List Char) → Bool
  | none => false
  | some s => !s.isEmpty

/-- Python truthiness of an optional int: `None` and `0` are falsy. -/
def truthyInt : Option Int → Bool
  | none => false
  | some n => n != 0

/-- The `MIMEText` message as finally handed to `send_message`. -/
structure Msg where
  subject : List Char
  recipient : List Char
  fromAddr : List Char
  body : List Char

/-- What one `send_email_alert` call did: which skip path it took, or which
transport it handed the message to, or that the transport raised (the
exception is caught, src/main.py lines 111-112, so every path returns). -/
inductive MailAction where
  | skippedNoRecipient
  | sentLocal (relay : List Char) (msg : Msg)
  | skippedIncompleteSmtp
  | sentRemote (server : List Char) (port : Int) (user : List Char) (msg : Msg)
  | sendFailed (localMode : Bool)

/-- The sender name for local-relay mode:
`os.environ.get('USER') or 'proxy-monitor'` (src/main.py line 95). -/
def localUser : Option (List Char) → List Char
  | none => "proxy-monitor".toList
  | some u => if u.isEmpty then "proxy-monitor".toList else u

/-- Embedding of `send_email_alert` (src/main.py lines 75-112).  `osUser` is
`os.environ.get('USER')`, `hostname` is `socket.gethostname()`, and `fail`
says whether the SMTP transport raised (the `except` at line 111 turns that
into a normal return). -/
def send_email_alert (args : MailArgs) (subject body : List Char)
    (osUser : Option (List Char)) (hostname : List Char) (fail : Bool) :
    MailAction :=
  if !truthyStr args.recipient_email then
    .skippedNoRecipient
  else if args.use_local_mta then
    let fromAddr := localUser osUser ++ '@' :: hostname
    if fail then .sendFailed true
    else
      .sentLocal ("localhost".toList)
        { subject := subject, recipient := args.recipient_email.getD [],
          fromAddr := fromAddr, body := body }
  else if !(truthyStr args.smtp_server && truthyInt args.smtp_port &&
      truthyStr args.smtp_user && truthyStr args.smtp_password) then
    .skippedIncompleteSmtp
  else if fail then .sendFailed false
  else
    .sentRemote (args.smtp_server.getD []) (args.smtp_port.getD 0)
      (args.smtp_user.getD [])
      { subject := subject, recipient := args.recipient_email.getD [],
        fromAddr := args.smtp_user.getD [], body := body }

/-- Whether a `send_email_alert` outcome reached for the transport at all
(as opposed to returning on one of the two skip paths). -/
def attemptsTransport : MailAction → Bool
  | .skippedNoRecipient => false
  | .skippedIncompleteSmtp => false
  | .sentLocal _ _ => true
  | .sentRemote _ _ _ _ => true
  | .sendFailed _ => true

/-- The part of the resolved configuration that the monitoring loop reads. -/
structure MonitorConfig where
  host : List Char
  port : Int
  websites : List (List Char)
  mail : MailArgs

/-- The environment of one run, indexed by the position of the target in the
website list: the result of `check_proxy_speed` (`none` is the caught
`RequestException`, src/main.py lines 29-31), whether `log_to_excel`'s body
raised, whether the mail transport raised, and the two `datetime.now()`
captures; plus the process environment read by `send_email_alert`. -/
structure Oracles where
  probeRes : Nat → Option ℚ
  storeErr : Nat → Bool
  mailFail : Nat → Bool
  nowLog : Nat → List Char
  nowAlert : Nat → List Char
  osUser : Option (List Char)
  hostname : List Char

/-- What happened for one target in one pass of the loop at src/main.py
lines 170-184: the probe result, whether the store update went through, and
the one `send_email_alert` call when the probe failed. -/
structure IterRecord where
  url : List Char
  probe : Option ℚ
  logged : Bool
  mail : Option MailAction

/-- The fixed alert subject (src/main.py line 180). -/
def alertSubject : List Char := "Proxy Server Down Alert!".toList

/-- The alert body (src/main.py lines 181-183). -/
def alertBody (host : List Char) (port : Int) (website ts : List Char) :
    List Char :=
  "The proxy server at ".toList ++ host ++ ':' :: (toString port).toList ++
    " seems to be down.\n".toList ++
    "Failed to connect to ".toList ++ website ++ " at ".toList ++ ts ++
    ".\n".toList ++ "Please check the proxy server status.".toList

/-- One iteration of the loop at src/main.py lines 170-184: probe, then on
success log an UP row with the measured time, on failure log a DOWN row with
time 0 and send one alert. -/
def runStep (cfg : MonitorConfig) (or : Oracles) (i : Nat)
    (file : Option Sheets) (website : List Char) :
    Option Sheets × IterRecord :=
  match or.probeRes i with
  | some download_time =>
    let file' := log_to_excel_caught (or.storeErr i) file website download_time
      ("UP".toList) (or.nowLog i)
    (file', { url := website, probe := some download_time,
              logged := !or.storeErr i, mail := none })
  | none =>
    let file' := log_to_excel_caught (or.storeErr i) file website 0
      ("DOWN".toList) (or.nowLog i)
    (file', { url := website, probe := none, logged := !or.storeErr i,
              mail := some (send_email_alert cfg.mail alertSubject
                (alertBody cfg.host cfg.port website (or.nowAlert i))
                or.osUser or.hostname (or.mailFail i)) })

/-- The record `runStep` produces for the target at position `k`; it does not
depend on the store state. -/
def mkRecord (cfg : MonitorConfig) (or : Oracles) (k : Nat)
    (website : List Char) : IterRecord :=
  match or.probeRes k with
  | some t => { url := website, probe := some t, logged := !or.storeErr k,
                mail := none }
  | none => { url := website, probe := none, logged := !or.storeErr k,
              mail := some (send_email_alert cfg.mail alertSubject
                (alertBody cfg.host cfg.port website (or.nowAlert k))
                or.osUser or.hostname (or.mailFail k)) }

/-- The `for website in args.websites` loop, threading the store state and
collecting one record per target, in order. -/
def runLoop (cfg : MonitorConfig) (or : Oracles) :
    Nat → Option Sheets → List (List Char) →
    Option Sheets × List IterRecord
  | _, file, [] => (file, [])
  | i, file, website :: rest =>
    let fr := runStep cfg or i file website
    let rem := runLoop cfg or (i + 1) fr.1 rest
    (rem.1, fr.2 :: rem.2)

/-- The whole monitoring pass over the configured targets, starting from the
store state `file0` found on disk. -/
def runMain (cfg : MonitorConfig) (or : Oracles) (file0 : Option Sheets) :
    Option Sheets × List IterRecord :=
  runLoop cfg or 0 file0 cfg.websites

/-- Python truthiness of an optional list: `None` and `[]` are falsy. -/
def truthyList : Option (List (List Char)) → Bool
  | none => false
  | some l => !l.isEmpty

/-- The resolved argparse namespace fields that `main` checks at startup. -/
structure Args where
  host : Option (List Char)
  port : Option Int
  websites : Option (List (List Char))
  log_file : Option (List Char)
  mail : MailArgs

/-- The startup check `all([args.host, args.port, args.websites,
args.log_file])` (src/main.py line 161). -/
def requiredComplete (a : Args) : Bool :=
  truthyStr a.host && truthyInt a.port && truthyList a.websites &&
    truthyStr a.log_file

/-- The only fatal error of the program: `parser.error` on missing required
configuration (src/main.py line 162). -/
inductive ConfigError where
  | missingRequired

/-- The loop configuration extracted from a complete argparse namespace. -/
def cfgOf (a : Args) : MonitorConfig :=
  { host := a.host.getD [], port := a.port.getD 0,
    websites := a.websites.getD [], mail := a.mail }

/-- Embedding of `main` after argument resolution (src/main.py
lines 161-184): the startup completeness check is the only fatal exit; with a
complete configuration the full pass runs. -/
def main_entry (a : Args) (or : Oracles) (file0 : Option Sheets) :
    Except ConfigError (Option Sheets × List IterRecord) :=
  if requiredComplete a then .ok (runMain (cfgOf a) or file0)
  else .error .missingRequired

/-- Example mail configuration: local-relay mode with a recipient. -/
def exMail : MailArgs :=
  { recipient_email := some ("ops@example.com".toList), use_local_mta := true,
    smtp_server := none, smtp_port := none, smtp_user := none,
    smtp_password := none }

/-- Example mail configuration: remote mode with the password missing. -/
def exMailRemote : MailArgs :=
  { recipient_email := some ("ops@example.com".toList), use_local_mta := false,
    smtp_server := some ("smtp.example.com".toList), smtp_port := some 465,
    smtp_user := some ("user1".toList), smtp_password := none }

/-- Example mail configuration: remote mode, every field present but the
port set to 0. -/
def exMail10 : MailArgs :=
  { exMailRemote with
    smtp_port := some 0, smtp_password := some ("pw".toList) }

/-- Example mail configuration with no recipient. -/
def exMailNoRcpt : MailArgs := { exMail with recipient_email := none }

/-- Example loop configuration with two targets. -/
def exCfg : MonitorConfig :=
  { host := "127.0.0.1".toList, port := 8080,
    websites := ["https://a.example".toList, "https://b.example".toList],
    mail := exMail }

/-- Example run environment: every probe fails, nothing else goes wrong. -/
def exOr : Oracles :=
  { probeRes := fun _ => none, storeErr := fun _ => false,
    mailFail := fun _ => false,
    nowLog := fun _ => "2026-10-12T00:00:00".toList,
    nowAlert := fun _ => "2026-10-12T00:00:01".toList,
    osUser := some ("alice".toList), hostname := "host1".toList }

/-- Example run environment where the store write and the mail transport both
fail on the first target. -/
def exOrErr : Oracles :=
  { exOr with storeErr := fun i => i == 0, mailFail := fun i => i == 0 }

/-- Example complete argparse namespace. -/
def exArgs : Args :=
  { host := some ("127.0.0.1".toList), port := some 8080,
    websites := some ["https://a.example".toList, "https://b.example".toList],
    log_file := some ("proxy_log.xlsx".toList), mail := exMail }

/- ### theorems -/

theorem replaceAll_nil (pat rep : List Char) : replaceAll pat rep [] = [] := by
  simp [replaceAll, replaceAllFuel]

/-- Replacement of a single character by a single character is a `map`. -/
theorem replaceAll_single (c d : Char) (s : List Char) :
    replaceAll [c] [d] s = s.map (fun x => if x = c then d else x) := by
  induction s with
  | nil => simp [replaceAll, replaceAllFuel]
  | cons x rest ih =>
    have hstep : replaceAll [c] [d] (x :: rest)
        = replaceAllFuel [c] [d] (rest.length + 1) (x :: rest) := by
      simp [replaceAll]
    rw [hstep]
    by_cases hx : x = c
    · subst hx
      simp [replaceAllFuel, startsWith, replaceAll] at ih ⊢
      exact ih
    · have hb : (c == x) = false := by
        simp [beq_iff_eq]
        exact fun h => hx h.symm
      simp [replaceAllFuel, startsWith, hb, replaceAll] at ih ⊢
      simpa [hx] using ih

/-- The source's per-character loop over `invalid_chars` is one combined
character map, provided the underscore is not itself among the characters
being replaced. -/
theorem foldl_replace_single (cs : List Char) (s : List Char) (hu : '_' ∉ cs) :
    cs.foldl (fun n c => replaceAll [c] ['_'] n) s
      = s.map (fun x => if cs.contains x then '_' else x) := by
  induction cs generalizing s with
  | nil => simp
  | cons c cs' ih =>
    have hu' : '_' ∉ cs' := fun h => hu (List.mem_cons_of_mem _ h)
    have huc : '_' ≠ c := fun h => hu (h ▸ List.mem_cons_self _ _)
    rw [List.foldl_cons, ih _ hu', replaceAll_single, List.map_map]
    have hfun : ((fun x => if cs'.contains x then '_' else x) ∘
        (fun x => if x = c then '_' else x))
        = fun x => if (c :: cs').contains x then '_' else x := by
      funext x
      by_cases hx : x = c
      · subst hx
        have : cs'.contains '_' = false := by
          rw [Bool.eq_false_iff]
          intro hmem
          exact hu' (List.elem_iff.mp hmem)
        simp [Function.comp, this, List.contains_cons]
      · have hbx : (x == c) = false := by simpa [beq_iff_eq] using hx
        simp [Function.comp, hx, List.contains_cons, hbx]
    rw [hfun]

/-- View of `sanitize_sheet_name`: the three global substring removals,
then one character map, then the truncation. -/
theorem sanitize_sheet_name_view (url : List Char) :
    sanitize_sheet_name url
      = ((replaceAll ("www.".toList) []
            (replaceAll ("http://".toList) []
              (replaceAll ("https://".toList) [] url))).map
          (fun c => if invalid_chars.contains c then '_' else c)).take 31 := by
  simp only [sanitize_sheet_name]
  rw [foldl_replace_single _ _ (by decide)]

/-- C1 (counterexample): on `example.com/www.x` the code removes the embedded
`www.` (Python `str.replace` is global), while the claimed reference only
strips leading markers; the two keys differ (`example.com_x` vs
`example.com_www.x`). -/
theorem sanitize_leading_strip_cex :
    sanitize_sheet_name ("example.com/www.x".toList)
      ≠ sanitize_claim ("example.com/www.x".toList) := by
  decide

/-- C1 (amended): the partition key is derived by removing EVERY occurrence of
`https://`, then `http://`, then `www.` from the URL (not only leading ones),
replacing every occurrence of each of the characters in `invalid_chars` with
an underscore, and truncating to at most 31 characters. -/
theorem sanitize_replaces_all_occurrences (url : List Char) :
    sanitize_sheet_name url = sanitize_amended url := by
  rw [sanitize_sheet_name_view]
  rfl

/-- C9: sanitization is deterministic, its result has length at most 31 and
contains none of the invalid characters. -/
theorem sanitize_deterministic_bounded_clean (url : List Char) :
    sanitize_sheet_name url = sanitize_sheet_name url ∧
    (sanitize_sheet_name url).length ≤ 31 ∧
    (sanitize_sheet_name url).filter (fun c => invalid_chars.contains c) = [] := by
  refine ⟨rfl, ?_, ?_⟩
  · rw [sanitize_sheet_name_view, List.length_take]
    exact min_le_left _ _
  · rw [sanitize_sheet_name_view]
    apply List.filter_eq_nil_iff.mpr
    intro a ha
    have ha' := List.take_subset 31 _ ha
    obtain ⟨x, _, hfx⟩ := List.mem_map.mp ha'
    by_cases hx : invalid_chars.contains x = true
    · rw [if_pos hx] at hfx
      subst hfx
      decide
    · rw [if_neg hx] at hfx
      subst hfx
      simpa using hx

theorem lookup_set_self (s : Sheets) (key : List Char) (rs : List Row) :
    lookupSheet (setSheet s key rs) key = some rs := by
  induction s with
  | nil => simp [setSheet, lookupSheet]
  | cons e rest ih =>
    obtain ⟨k, rs0⟩ := e
    by_cases hk : k = key
    · simp [setSheet, hk, lookupSheet]
    · simp [setSheet, hk, lookupSheet, ih]

theorem lookup_set_ne (s : Sheets) (key : List Char) (rs : List Row)
    (k' : List Char) (h : k' ≠ key) :
    lookupSheet (setSheet s key rs) k' = lookupSheet s k' := by
  have h' : ¬ key = k' := fun hc => h hc.symm
  induction s with
  | nil => simp [setSheet, lookupSheet, h']
  | cons e rest ih =>
    obtain ⟨k, rs0⟩ := e
    by_cases hk : k = key
    · subst hk
      simp [setSheet, lookupSheet, h']
    · simp [setSheet, hk, lookupSheet, ih]

theorem lookup_append_right (s t : Sheets) (key : List Char)
    (h : lookupSheet s key = none) :
    lookupSheet (s ++ t) key = lookupSheet t key := by
  induction s with
  | nil => simp
  | cons e rest ih =>
    obtain ⟨k, rs0⟩ := e
    by_cases hk : k = key
    · simp [lookupSheet, hk] at h
    · simp [lookupSheet, hk] at h ⊢
      exact ih h

theorem lookup_append_single_ne (s : Sheets) (key : List Char) (rs : List Row)
    (k' : List Char) (h : k' ≠ key) :
    lookupSheet (s ++ [(key, rs)]) k' = lookupSheet s k' := by
  have h' : ¬ key = k' := fun hc => h hc.symm
  induction s with
  | nil => simp [lookupSheet, h']
  | cons e rest ih =>
    obtain ⟨k, rs0⟩ := e
    by_cases hk : k = k'
    · simp [lookupSheet, hk]
    · simp [lookupSheet, hk, ih]

theorem lookup_log_self (s : Sheets) (key : List Char) (row : Row) :
    lookupSheet (logSheets s key row) key
      = some ((lookupSheet s key).getD [] ++ [row]) := by
  cases h : lookupSheet s key with
  | none =>
    simp [logSheets, h, lookup_append_right _ _ _ h, lookupSheet]
  | some rs =>
    simp [logSheets, h, lookup_set_self]

theorem lookup_log_ne (s : Sheets) (key : List Char) (row : Row)
    (k' : List Char) (h : k' ≠ key) :
    lookupSheet (logSheets s key row) k' = lookupSheet s k' := by
  cases hs : lookupSheet s key with
  | none => simp [logSheets, hs, lookup_append_single_ne _ _ _ _ h]
  | some rs => simp [logSheets, hs, lookup_set_ne _ _ _ _ h]

/-- C8: when the store file does not exist, an append produces exactly one
sheet holding exactly the one new row. -/
theorem append_on_missing_store (url : List Char) (download_time : ℚ)
    (status ts : List Char) :
    log_to_excel none url download_time status ts
      = [(sanitize_sheet_name url, [mkRow url download_time status ts])] := by
  simp [log_to_excel, sheetsOf, logSheets, lookupSheet]

/-- C4: N successive appends for one target extend that target's sheet by the
N rows in call order, and leave every other sheet's lookup unchanged. -/
theorem append_partition_frame (file : Option Sheets) (url : List Char)
    (outs : List Outcome) :
    (lookupSheet (sheetsOf (log_many file url outs)) (sanitize_sheet_name url)).getD []
        = (lookupSheet (sheetsOf file) (sanitize_sheet_name url)).getD []
            ++ outs.map (rowOf url) ∧
    ∀ k, k ≠ sanitize_sheet_name url →
      lookupSheet (sheetsOf (log_many file url outs)) k
        = lookupSheet (sheetsOf file) k := by
  induction outs generalizing file with
  | nil => simp [log_many]
  | cons o rest ih =>
    have hstep : log_many file url (o :: rest)
        = log_many (some (log_to_excel file url o.time o.status o.ts)) url rest := by
      simp [log_many]
    obtain ⟨ih1, ih2⟩ := ih (some (log_to_excel file url o.time o.status o.ts))
    constructor
    · rw [hstep, ih1]
      have : sheetsOf (some (log_to_excel file url o.time o.status o.ts))
          = logSheets (sheetsOf file) (sanitize_sheet_name url) (rowOf url o) := rfl
      rw [this, lookup_log_self]
      simp
    · intro k hk
      rw [hstep, ih2 k hk]
      have : sheetsOf (some (log_to_excel file url o.time o.status o.ts))
          = logSheets (sheetsOf file) (sanitize_sheet_name url) (rowOf url o) := rfl
      rw [this, lookup_log_ne _ _ _ _ hk]

theorem runStep_record (cfg : MonitorConfig) (or : Oracles) (i : Nat)
    (file : Option Sheets) (website : List Char) :
    (runStep cfg or i file website).2 = mkRecord cfg or i website := by
  cases h : or.probeRes i <;> simp [runStep, mkRecord, h]

theorem runLoop_trace_length (cfg : MonitorConfig) (or : Oracles)
    (ws : List (List Char)) : ∀ (i : Nat) (file : Option Sheets),
    ((runLoop cfg or i file ws).2).length = ws.length := by
  induction ws with
  | nil => intro i file; simp [runLoop]
  | cons w rest ih => intro i file; simp [runLoop, ih]

theorem runLoop_trace_get (cfg : MonitorConfig) (or : Oracles)
    (ws : List (List Char)) : ∀ (i : Nat) (file : Option Sheets) (j : Nat),
    ((runLoop cfg or i file ws).2)[j]?
      = (ws[j]?).map (fun w => mkRecord cfg or (i + j) w) := by
  induction ws with
  | nil => intro i file j; simp [runLoop]
  | cons w rest ih =>
    intro i file j
    cases j with
    | zero => simp [runLoop, runStep_record]
    | succ j' =>
      have hshift : i + (j' + 1) = (i + 1) + j' := by omega
      simp only [runLoop, List.getElem?_cons_succ]
      rw [ih (i + 1) _ j', hshift]

/-- C2: no store or mail failure aborts the pass — for every oracle choice
(arbitrary store errors and transport failures on any targets) every
configured target still gets probed and its record attempt made, in order;
only the startup completeness check is fatal. -/
theorem pipeline_errors_do_not_abort_run (a : Args) (or : Oracles)
    (file0 : Option Sheets) :
    (requiredComplete a = false →
      main_entry a or file0 = .error .missingRequired) ∧
    (requiredComplete a = true →
      main_entry a or file0 = .ok (runMain (cfgOf a) or file0) ∧
      ((runMain (cfgOf a) or file0).2).length = (cfgOf a).websites.length ∧
      ∀ (j : Nat) (url : List Char), ((cfgOf a).websites)[j]? = some url →
        ∃ r, ((runMain (cfgOf a) or file0).2)[j]? = some r ∧
          r.url = url ∧ r.probe = or.probeRes j ∧
          r.logged = !or.storeErr j) := by
  constructor
  · intro h
    simp [main_entry, h]
  · intro h
    refine ⟨by simp [main_entry, h], runLoop_trace_length _ _ _ _ _, ?_⟩
    intro j url hj
    refine ⟨mkRecord (cfgOf a) or j url, ?_, ?_⟩
    · rw [runMain, runLoop_trace_get, hj]
      simp
    · cases hp : or.probeRes j <;> simp [mkRecord, hp]

/-- C3: a failed probe is recorded with latency 0 and status DOWN; the text
stored in the download-time column is the 4-decimal rendering of that 0,
namely `0.0000`. -/
theorem down_probe_recorded_zero_latency (cfg : MonitorConfig) (or : Oracles)
    (i : Nat) (file : Option Sheets) (url : List Char)
    (hp : or.probeRes i = none) (hs : or.storeErr i = false) :
    formatFixed4 0 = "0.0000".toList ∧
    (runStep cfg or i file url).1
      = some (logSheets (sheetsOf file) (sanitize_sheet_name url)
          { timestamp := or.nowLog i, url := url,
            downloadTime := "0.0000".toList, status := "DOWN".toList }) ∧
    (runStep cfg or i file url).2.probe = none := by
  have hfmt : formatFixed4 0 = "0.0000".toList := by decide
  refine ⟨hfmt, ?_, ?_⟩
  · simp only [runStep, hp, hs, log_to_excel_caught, if_neg Bool.false_ne_true,
      log_to_excel, mkRow]
    rw [hfmt]
  · simp [runStep, hp]

/-- C7: for each configured target the loop makes exactly one
`send_email_alert` call when its probe fails, and none when it succeeds. -/
theorem one_alert_per_down_target (cfg : MonitorConfig) (or : Oracles)
    (file0 : Option Sheets) (j : Nat) (url : List Char)
    (hj : (cfg.websites)[j]? = some url) :
    ∃ r, ((runMain cfg or file0).2)[j]? = some r ∧ r.url = url ∧
      (or.probeRes j = none →
        r.mail = some (send_email_alert cfg.mail alertSubject
          (alertBody cfg.host cfg.port url (or.nowAlert j))
          or.osUser or.hostname (or.mailFail j))) ∧
      (or.probeRes j ≠ none → r.mail = none) := by
  refine ⟨mkRecord cfg or j url, ?_, ?_, ?_, ?_⟩
  · rw [runMain, runLoop_trace_get, hj]
    simp
  · cases hp : or.probeRes j <;> simp [mkRecord, hp]
  · intro hp; simp [mkRecord, hp]
  · intro hp
    cases hp2 : or.probeRes j with
    | none => exact absurd hp2 hp
    | some t => simp [mkRecord, hp2]

/-- C5: in local-relay mode the message goes to the local relay with the
sender built from the OS user and host name, and the remote SMTP fields are
ignored even when present; in remote mode an incomplete
server/port/user/password quadruple skips the dispatch before any transport
call. -/
theorem alert_mode_exclusivity (args : MailArgs) (subject body : List Char)
    (osUser : Option (List Char)) (hostname : List Char) (fail : Bool) :
    (args.use_local_mta = true →
      (∀ (s : Option (List Char)) (p : Option Int)
          (u pw : Option (List Char)),
        send_email_alert
          { args with
            smtp_server := s, smtp_port := p, smtp_user := u,
            smtp_password := pw } subject body osUser hostname fail
          = send_email_alert args subject body osUser hostname fail) ∧
      (truthyStr args.recipient_email = true → fail = false →
        send_email_alert args subject body osUser hostname fail
          = MailAction.sentLocal ("localhost".toList)
              { subject := subject,
                recipient := args.recipient_email.getD [],
                fromAddr := localUser osUser ++ '@' :: hostname,
                body := body })) ∧
    (args.use_local_mta = false →
      (truthyStr args.smtp_server && truthyInt args.smtp_port &&
        truthyStr args.smtp_user && truthyStr args.smtp_password) = false →
      attemptsTransport
          (send_email_alert args subject body osUser hostname fail) = false ∧
      (truthyStr args.recipient_email = true →
        send_email_alert args subject body osUser hostname fail
          = MailAction.skippedIncompleteSmtp)) := by
  obtain ⟨rec, loc, ss, sp, su, spw⟩ := args
  constructor
  · intro hloc
    subst hloc
    constructor
    · intro s p u pw
      cases hr : truthyStr rec <;>
        simp [send_email_alert, hr]
    · intro hr hf
      subst hf
      simp [send_email_alert, hr]
  · intro hloc hquad
    subst hloc
    cases hr : truthyStr rec with
    | false => simp [send_email_alert, hr, attemptsTransport]
    | true => simp [send_email_alert, hr, hquad, attemptsTransport]

/-- C6: with no recipient configured the dispatch returns on the first skip
path, before either delivery mode is consulted, and attempts no transport
call. -/
theorem alert_skipped_without_recipient (args : MailArgs)
    (subject body : List Char) (osUser : Option (List Char))
    (hostname : List Char) (fail : Bool)
    (h : truthyStr args.recipient_email = false) :
    send_email_alert args subject body osUser hostname fail
      = MailAction.skippedNoRecipient ∧
    attemptsTransport
      (send_email_alert args subject body osUser hostname fail) = false := by
  simp [send_email_alert, h, attemptsTransport]

/-- C10: a present-but-falsy remote field (port 0, or an empty server, user
or password string) behaves exactly like an absent one: the dispatch result
is unchanged when the field is replaced by `none`, and in remote mode such a
field makes the dispatch skip before any transport call. -/
theorem falsy_smtp_fields_treated_absent (args : MailArgs)
    (subject body : List Char) (osUser : Option (List Char))
    (hostname : List Char) (fail : Bool) :
    (send_email_alert { args with smtp_port := some 0 }
        subject body osUser hostname fail
      = send_email_alert { args with smtp_port := none }
        subject body osUser hostname fail) ∧
    (send_email_alert { args with smtp_server := some [] }
        subject body osUser hostname fail
      = send_email_alert { args with smtp_server := none }
        subject body osUser hostname fail) ∧
    (send_email_alert { args with smtp_user := some [] }
        subject body osUser hostname fail
      = send_email_alert { args with smtp_user := none }
        subject body osUser hostname fail) ∧
    (send_email_alert { args with smtp_password := some [] }
        subject body osUser hostname fail
      = send_email_alert { args with smtp_password := none }
        subject body osUser hostname fail) ∧
    (args.use_local_mta = false →
      (args.smtp_port = some 0 ∨ args.smtp_server = some [] ∨
        args.smtp_user = some [] ∨ args.smtp_password = some []) →
      attemptsTransport
          (send_email_alert args subject body osUser hostname fail) = false ∧
      (truthyStr args.recipient_email = true →
        send_email_alert args subject body osUser hostname fail
          = MailAction.skippedIncompleteSmtp)) := by
  obtain ⟨rec, loc, ss, sp, su, spw⟩ := args
  refine ⟨?_, ?_, ?_, ?_, ?_⟩
  · cases hr : truthyStr rec <;> cases loc <;>
      simp [send_email_alert, hr, truthyInt]
  · cases hr : truthyStr rec <;> cases loc <;>
      simp [send_email_alert, hr, truthyStr]
  · cases hr : truthyStr rec <;> cases loc <;>
      simp [send_email_alert, hr, truthyStr]
  · cases hr : truthyStr rec <;> cases loc <;>
      simp [send_email_alert, hr, truthyStr]
  · intro hloc hfalsy
    subst hloc
    have hquad : (truthyStr ss && truthyInt sp && truthyStr su &&
        truthyStr spw) = false := by
      rcases hfalsy with h | h | h | h <;> subst h <;>
        simp [truthyInt, truthyStr]
    cases hr : truthyStr rec with
    | false => simp [send_email_alert, hr, attemptsTransport]
    | true =>
      constructor
      · simp [send_email_alert, hr, hquad, attemptsTransport]
      · intro _
        simp [send_email_alert, hr, hquad]

/-- Witness for C2: with errors on the first target, the second target is
still probed and recorded. -/
theorem pipeline_errors_do_not_abort_run_witness :
    requiredComplete exArgs = true ∧
    ((cfgOf exArgs).websites)[1]? = some ("https://b.example".toList) ∧
    (∃ r, ((runMain (cfgOf exArgs) exOrErr none).2)[1]? = some r ∧
      r.url = "https://b.example".toList ∧ r.probe = exOrErr.probeRes 1 ∧
      r.logged = !exOrErr.storeErr 1) :=
  ⟨rfl, rfl,
    ((pipeline_errors_do_not_abort_run exArgs exOrErr none).2 rfl).2.2 1
      ("https://b.example".toList) rfl⟩

/-- Witness for C3 at the first target of the example run. -/
theorem down_probe_recorded_zero_latency_witness :
    exOr.probeRes 0 = none ∧ exOr.storeErr 0 = false ∧
    (formatFixed4 0 = "0.0000".toList ∧
      (runStep exCfg exOr 0 none ("https://a.example".toList)).1
        = some (logSheets (sheetsOf none)
            (sanitize_sheet_name ("https://a.example".toList))
            { timestamp := exOr.nowLog 0, url := "https://a.example".toList,
              downloadTime := "0.0000".toList, status := "DOWN".toList }) ∧
      (runStep exCfg exOr 0 none ("https://a.example".toList)).2.probe
        = none) :=
  ⟨rfl, rfl,
    down_probe_recorded_zero_latency exCfg exOr 0 none
      ("https://a.example".toList) rfl rfl⟩

/-- Witness for C4: an append for one target leaves a foreign sheet's lookup
unchanged. -/
theorem append_partition_frame_witness :
    ("zz".toList ≠ sanitize_sheet_name ("https://a.example".toList)) ∧
    lookupSheet (sheetsOf (log_many (some [("zz".toList, [])])
        ("https://a.example".toList) [⟨0, "DOWN".toList, "t0".toList⟩]))
      ("zz".toList)
      = lookupSheet (sheetsOf (some [("zz".toList, [])])) ("zz".toList) :=
  ⟨by decide,
    (append_partition_frame (some [("zz".toList, [])])
      ("https://a.example".toList) [⟨0, "DOWN".toList, "t0".toList⟩]).2
      ("zz".toList) (by decide)⟩

/-- Witness for C5: both configured modes at a concrete message. -/
theorem alert_mode_exclusivity_witness :
    exMail.use_local_mta = true ∧
    truthyStr exMail.recipient_email = true ∧
    send_email_alert exMail ("s".toList) ("b".toList)
        (some ("alice".toList)) ("host1".toList) false
      = MailAction.sentLocal ("localhost".toList)
          { subject := "s".toList,
            recipient := exMail.recipient_email.getD [],
            fromAddr := localUser (some ("alice".toList)) ++
              '@' :: "host1".toList,
            body := "b".toList } ∧
    exMailRemote.use_local_mta = false ∧
    (truthyStr exMailRemote.smtp_server && truthyInt exMailRemote.smtp_port &&
      truthyStr exMailRemote.smtp_user &&
      truthyStr exMailRemote.smtp_password) = false ∧
    send_email_alert exMailRemote ("s".toList) ("b".toList)
        (some ("alice".toList)) ("host1".toList) false
      = MailAction.skippedIncompleteSmtp :=
  ⟨rfl, rfl,
    ((alert_mode_exclusivity exMail ("s".toList) ("b".toList)
        (some ("alice".toList)) ("host1".toList) false).1 rfl).2 rfl rfl,
    rfl, rfl,
    ((alert_mode_exclusivity exMailRemote ("s".toList) ("b".toList)
        (some ("alice".toList)) ("host1".toList) false).2 rfl rfl).2 rfl⟩

/-- Witness for C6 at a concrete configuration with no recipient. -/
theorem alert_skipped_without_recipient_witness :
    truthyStr exMailNoRcpt.recipient_email = false ∧
    (send_email_alert exMailNoRcpt ("s".toList) ("b".toList)
        (some ("alice".toList)) ("host1".toList) false
      = MailAction.skippedNoRecipient ∧
    attemptsTransport (send_email_alert exMailNoRcpt ("s".toList)
      ("b".toList) (some ("alice".toList)) ("host1".toList) false) = false) :=
  ⟨rfl,
    alert_skipped_without_recipient exMailNoRcpt ("s".toList) ("b".toList)
      (some ("alice".toList)) ("host1".toList) false rfl⟩

/-- Witness for C7 at the first target of the example run. -/
theorem one_alert_per_down_target_witness :
    (exCfg.websites)[0]? = some ("https://a.example".toList) ∧
    (∃ r, ((runMain exCfg exOr none).2)[0]? = some r ∧
      r.url = "https://a.example".toList ∧
      (exOr.probeRes 0 = none →
        r.mail = some (send_email_alert exCfg.mail alertSubject
          (alertBody exCfg.host exCfg.port ("https://a.example".toList)
            (exOr.nowAlert 0))
          exOr.osUser exOr.hostname (exOr.mailFail 0))) ∧
      (exOr.probeRes 0 ≠ none → r.mail = none)) :=
  ⟨rfl,
    one_alert_per_down_target exCfg exOr none 0
      ("https://a.example".toList) rfl⟩

/-- Witness for C10: remote mode with port 0 skips without a transport
call. -/
theorem falsy_smtp_fields_treated_absent_witness :
    exMail10.use_local_mta = false ∧ exMail10.smtp_port = some 0 ∧
    truthyStr exMail10.recipient_email = true ∧
    attemptsTransport (send_email_alert exMail10 ("s".toList) ("b".toList)
      (some ("alice".toList)) ("host1".toList) false) = false ∧
    send_email_alert exMail10 ("s".toList) ("b".toList)
        (some ("alice".toList)) ("host1".toList) false
      = MailAction.skippedIncompleteSmtp :=
  ⟨rfl, rfl, rfl,
    ((falsy_smtp_fields_treated_absent exMail10 ("s".toList) ("b".toList)
        (some ("alice".toList)) ("host1".toList) false).2.2.2.2 rfl
      (Or.inl rfl)).1,
    ((falsy_smtp_fields_treated_absent exMail10 ("s".toList) ("b".toList)
        (some ("alice".toList)) ("host1".toList) false).2.2.2.2 rfl
      (Or.inl rfl)).2 rfl⟩
